import Mathlib

/-!
Shallow embedding of `src/rtspMonitor.py` (RTSP Camera Monitor).

The monitoring core is embedded as executable Lean definitions:
the line parser `parse_ffmpeg_line`, the per-line stats update of
`run_ffmpeg_monitor`, the bounded speed window (`deque(maxlen=50)`),
the guarded averages of `update_log_display` / `update_graphs`, the
CSV row serialization, the ffmpeg command construction, the launch
grace-period check, and `stop_monitoring`.

Python floats parsed from decimal literals are modelled as rationals;
Python regex search is modelled by leftmost-match scanning functions
over ASCII character lists (the five patterns involved are
deterministic: greedy matching never needs backtracking because the
character classes at each boundary are disjoint).
-/

attribute [local semireducible] Rat.add Rat.mul Rat.inv Rat.sub

set_option maxRecDepth 16384

/-- Character class of Python regex `\d` restricted to ASCII, as produced
by the ffmpeg diagnostic output the patterns target. -/
def isDigitChar (c : Char) : Bool := c.isDigit

/-- Character class `[\d\.]` of `FPS_PATTERN` and `SPEED_PATTERN`. -/
def isDigitDot (c : Char) : Bool := c.isDigit || c = '.'

/-- Character class of Python regex `\s` (ASCII part). -/
def isPySpace (c : Char) : Bool :=
  c = ' ' || c = '\t' || c = '\n' || c = '\r' || c = '\x0b' || c = '\x0c'

/-- Tests whether the first list is an initial segment of the second. -/
def listStartsWith : List Char → List Char → Bool
  | [], _ => true
  | _ :: _, [] => false
  | p :: ps, c :: cs => p == c && listStartsWith ps cs

/-- Leftmost regex search: try a match at every start position, left to
right, returning the first success (the semantics of `re.search`). -/
def searchFirst {α : Type} (m : List Char → Option α) : List Char → Option α
  | [] => m []
  | c :: rest =>
    match m (c :: rest) with
    | some r => some r
    | none => searchFirst m rest

/-- Anchored match of `FPS_PATTERN = fps=\s*([\d\.]+)`: the literal
`fps=`, optional whitespace, then a maximal nonempty run of `[\d\.]`
as the captured group. -/
def matchFpsAt (l : List Char) : Option (List Char) :=
  if listStartsWith "fps=".toList l then
    let afterWs := (l.drop 4).dropWhile isPySpace
    let cap := afterWs.takeWhile isDigitDot
    if cap.isEmpty then none else some cap
  else none

/-- Anchored match of `SPEED_PATTERN = speed=\s*([\d\.]+)x`: as for fps
but the captured run must be followed by the literal `x`. -/
def matchSpeedAt (l : List Char) : Option (List Char) :=
  if listStartsWith "speed=".toList l then
    let afterWs := (l.drop 6).dropWhile isPySpace
    let cap := afterWs.takeWhile isDigitDot
    if cap.isEmpty then none
    else
      match afterWs.drop cap.length with
      | 'x' :: _ => some cap
      | _ => none
  else none

/-- Anchored match of `MISSED_PACKETS_PATTERN = missed (\d+) packets`. -/
def matchMissedAt (l : List Char) : Option (List Char) :=
  if listStartsWith "missed ".toList l then
    let rest := l.drop 7
    let cap := rest.takeWhile isDigitChar
    if cap.isEmpty then none
    else if listStartsWith " packets".toList (rest.drop cap.length) then some cap
    else none
  else none

/-- Anchored match of `MAX_DELAY_PATTERN = max delay reached`. -/
def matchMaxDelayAt (l : List Char) : Option Unit :=
  if listStartsWith "max delay reached".toList l then some () else none

/-- Anchored match of
`DECODE_ERROR_PATTERN = concealing (\d+) DC,\s*(\d+) AC,\s*(\d+) MV errors`,
capturing the three digit runs. -/
def matchDecodeAt (l : List Char) : Option (List Char × List Char × List Char) :=
  if listStartsWith "concealing ".toList l then
    let r1 := l.drop 11
    let d1 := r1.takeWhile isDigitChar
    if d1.isEmpty then none
    else
      let r2 := r1.drop d1.length
      if listStartsWith " DC,".toList r2 then
        let r3 := (r2.drop 4).dropWhile isPySpace
        let d2 := r3.takeWhile isDigitChar
        if d2.isEmpty then none
        else
          let r4 := r3.drop d2.length
          if listStartsWith " AC,".toList r4 then
            let r5 := (r4.drop 4).dropWhile isPySpace
            let d3 := r5.takeWhile isDigitChar
            if d3.isEmpty then none
            else if listStartsWith " MV errors".toList (r5.drop d3.length) then
              some (d1, d2, d3)
            else none
          else none
      else none
  else none

/-- `FPS_PATTERN.search(line)`, returning the captured group. -/
def searchFps (line : String) : Option (List Char) :=
  searchFirst matchFpsAt line.toList

/-- `SPEED_PATTERN.search(line)`, returning the captured group. -/
def searchSpeed (line : String) : Option (List Char) :=
  searchFirst matchSpeedAt line.toList

/-- `MISSED_PACKETS_PATTERN.search(line)`, returning the captured group. -/
def searchMissed (line : String) : Option (List Char) :=
  searchFirst matchMissedAt line.toList

/-- Truth of `MAX_DELAY_PATTERN.search(line)`. -/
def searchMaxDelay (line : String) : Bool :=
  (searchFirst matchMaxDelayAt line.toList).isSome

/-- `DECODE_ERROR_PATTERN.search(line)`, returning the three groups. -/
def searchDecode (line : String) : Option (List Char × List Char × List Char) :=
  searchFirst matchDecodeAt line.toList

/-- Value of a digit string, most significant digit first. -/
def natOfDigits (l : List Char) : ℕ :=
  l.foldl (fun a c => 10 * a + (c.toNat - 48)) 0

/-- Python `float()` applied to a captured `[\d\.]+` group, as a rational:
it succeeds exactly when the string is over the digits-and-dot alphabet,
holds at most one dot, and holds at least one digit (so `1.2.3`, `.`
and `..` raise `ValueError`, modelled as `none`). -/
def pyFloatQ (cap : List Char) : Option ℚ :=
  if cap.all isDigitDot && (cap.countP (fun c => c = '.')) ≤ 1 && cap.any isDigitChar then
    let ip := cap.takeWhile (fun c => c ≠ '.')
    let rest := cap.drop ip.length
    let fp := rest.drop 1
    some ((natOfDigits ip : ℚ) + (natOfDigits fp : ℚ) / (10 ^ fp.length : ℚ))
  else none

/-- Python `int()` applied to a captured group: succeeds on a nonempty
digit string (the `\d+` groups it is applied to always are). -/
def pyIntN (cap : List Char) : Option ℕ :=
  if !cap.isEmpty && cap.all isDigitChar then some (natOfDigits cap) else none

/-- The dictionary built by `parse_ffmpeg_line` (src/rtspMonitor.py:351). -/
structure MetricRecord where
  fps : Option ℚ
  speed : Option ℚ
  missed_packets : Option ℕ
  max_delay : Bool
  decode_errors : Option String
deriving DecidableEq, Repr

/-- `parse_ffmpeg_line` (src/rtspMonitor.py:350-378), translated update
by update: each pattern is searched independently; a matched numeric
group is converted with `float`/`int` under `try/except` so a
conversion failure leaves just that field `None`. -/
def parse_ffmpeg_line (line : String) : MetricRecord :=
  let result0 : MetricRecord :=
    { fps := none, speed := none, missed_packets := none,
      max_delay := false, decode_errors := none }
  let result1 :=
    match searchFps line with
    | some cap => { result0 with fps := pyFloatQ cap }
    | none => result0
  let result2 :=
    match searchSpeed line with
    | some cap => { result1 with speed := pyFloatQ cap }
    | none => result1
  let result3 :=
    match searchMissed line with
    | some cap => { result2 with missed_packets := pyIntN cap }
    | none => result2
  let result4 :=
    if searchMaxDelay line then { result3 with max_delay := true } else result3
  match searchDecode line with
  | some (d1, d2, d3) =>
      { result4 with
        decode_errors := some ("DC=" ++ String.mk d1 ++ ",AC=" ++ String.mk d2 ++ ",MV=" ++ String.mk d3) }
  | none => result4

example : parse_ffmpeg_line "frame= 120 fps= 25.0 q=-1.0 size=N/A time=00:00:05.00 bitrate=N/A speed=1.02x" =
    { fps := some 25, speed := some (51/50), missed_packets := none,
      max_delay := false, decode_errors := none } := by decide

example : parse_ffmpeg_line "fps=1.2.3 speed=0.99x" =
    { fps := none, speed := some (99/100), missed_packets := none,
      max_delay := false, decode_errors := none } := by decide

example : parse_ffmpeg_line "missed 0 packets" =
    { fps := none, speed := none, missed_packets := some 0,
      max_delay := false, decode_errors := none } := by decide

example : parse_ffmpeg_line "[h264] concealing 5 DC, 5 AC, 5 MV errors in P frame" =
    { fps := none, speed := none, missed_packets := none,
      max_delay := false, decode_errors := some "DC=5,AC=5,MV=5" } := by decide

/-- Standalone fps field extraction: the `fps_match` block of
`parse_ffmpeg_line` (src/rtspMonitor.py:352-357) on its own. -/
def fpsField (line : String) : Option ℚ :=
  match searchFps line with
  | some cap => pyFloatQ cap
  | none => none

/-- Standalone speed field extraction (src/rtspMonitor.py:358-363). -/
def speedField (line : String) : Option ℚ :=
  match searchSpeed line with
  | some cap => pyFloatQ cap
  | none => none

/-- Standalone missed-packets field extraction (src/rtspMonitor.py:364-369). -/
def missedField (line : String) : Option ℕ :=
  match searchMissed line with
  | some cap => pyIntN cap
  | none => none

/-- Standalone max-delay flag extraction (src/rtspMonitor.py:370-371). -/
def maxDelayField (line : String) : Bool :=
  searchMaxDelay line

/-- Standalone decode-errors field extraction (src/rtspMonitor.py:372-377). -/
def decodeField (line : String) : Option String :=
  match searchDecode line with
  | some (d1, d2, d3) =>
      some ("DC=" ++ String.mk d1 ++ ",AC=" ++ String.mk d2 ++ ",MV=" ++ String.mk d3)
  | none => none

/-- Stats state of `CameraMonitorGUI` (src/rtspMonitor.py:48-51):
`total_frames`, `sum_fps`, the `deque(maxlen=50)` of speed values
(oldest first), and `missed_packets_count`. -/
structure Stats where
  total_frames : ℕ
  sum_fps : ℚ
  speed_values : List ℚ
  missed_packets_count : ℕ
deriving DecidableEq, Repr

/-- The reset of the stats at session start
(`start_monitoring`, src/rtspMonitor.py:234-237). -/
def init_stats : Stats :=
  { total_frames := 0, sum_fps := 0, speed_values := [], missed_packets_count := 0 }

/-- `collections.deque(maxlen=cap).append`: append to the right and, past
capacity, evict from the left. -/
def dequePush (cap : ℕ) (w : List ℚ) (x : ℚ) : List ℚ :=
  let grown := w ++ [x]
  grown.drop (grown.length - cap)

/-- The per-line stats update of `run_ffmpeg_monitor`
(src/rtspMonitor.py:318-325): if fps is present, bump the frame count
and the fps sum; if speed is present, push it into the bounded deque;
if missed packets is present, add it to the cumulative counter. -/
def update_stats (s : Stats) (parsed : MetricRecord) : Stats :=
  let s1 :=
    match parsed.fps with
    | some v => { s with total_frames := s.total_frames + 1, sum_fps := s.sum_fps + v }
    | none => s
  let s2 :=
    match parsed.speed with
    | some v => { s1 with speed_values := dequePush 50 s1.speed_values v }
    | none => s1
  match parsed.missed_packets with
  | some v => { s2 with missed_packets_count := s2.missed_packets_count + v }
  | none => s2

/-- The guarded average fps read in `update_log_display`
(src/rtspMonitor.py:402) and `update_graphs` (src/rtspMonitor.py:415). -/
def avg_fps (s : Stats) : ℚ :=
  if s.total_frames > 0 then s.sum_fps / (s.total_frames : ℚ) else 0

/-- The guarded average speed read in `update_log_display`
(src/rtspMonitor.py:403) and `update_graphs` (src/rtspMonitor.py:416);
the Python guard is the truthiness of the deque, i.e. nonemptiness. -/
def avg_speed (s : Stats) : ℚ :=
  if s.speed_values.isEmpty then 0 else s.speed_values.sum / (s.speed_values.length : ℚ)

/-- A value handed to `csv.writer.writerow`: a string, a float, or an
int (the `csv` module stringifies each injectively; distinct values of
distinct kinds never collide because the float/int renderings are
nonempty digit strings while the empty-marker is the empty string). -/
inductive Cell
  | s (v : String)
  | q (v : ℚ)
  | n (v : ℕ)
  | i (v : ℤ)
deriving DecidableEq, Repr

/-- The row handed to `writer.writerow` in `run_ffmpeg_monitor`
(src/rtspMonitor.py:327-335). Note the conditions: `fps` and `speed`
use `is not None`, while `missed_packets` and `decode_errors` use
Python truthiness (`x if x else ""`), under which a present `0` or
empty string also serializes as the empty marker. -/
def write_row (timestamp_str : String) (parsed : MetricRecord) (line : String) : List Cell :=
  [ Cell.s timestamp_str,
    (match parsed.fps with
     | some v => Cell.q v
     | none => Cell.s ""),
    (match parsed.speed with
     | some v => Cell.q v
     | none => Cell.s ""),
    (match parsed.missed_packets with
     | some v => if v = 0 then Cell.s "" else Cell.n v
     | none => Cell.s ""),
    Cell.i (if parsed.max_delay then 1 else 0),
    (match parsed.decode_errors with
     | some d => if d = "" then Cell.s "" else Cell.s d
     | none => Cell.s ""),
    Cell.s line ]

/-- Reading a numeric column back per the documented format: the empty
string means absent, a numeric cell is the value. -/
def read_opt_num (c : Cell) : Option ℚ :=
  match c with
  | Cell.q v => some v
  | _ => none

/-- Reading the missed-packets column back. -/
def read_opt_nat (c : Cell) : Option ℕ :=
  match c with
  | Cell.n v => some v
  | _ => none

/-- Reading the `max_delay_reached` column back: `1` means set. -/
def read_flag (c : Cell) : Bool :=
  c = Cell.i 1

/-- Reading the `decode_errors` column back: empty means absent. -/
def read_decode (c : Cell) : Option String :=
  match c with
  | Cell.s "" => none
  | Cell.s d => some d
  | _ => none

/-- Re-reading one appended row per the documented CSV format,
reconstructing the timestamp, the record, and the raw line. -/
def read_record (row : List Cell) : Option (String × MetricRecord × String) :=
  match row with
  | [Cell.s t, f, sp, m, d, de, Cell.s raw] =>
      some (t,
        { fps := read_opt_num f, speed := read_opt_num sp,
          missed_packets := read_opt_nat m, max_delay := read_flag d,
          decode_errors := read_decode de }, raw)
  | _ => none

/-- Model of Python `shlex.split` in POSIX mode as used for the extra
ffmpeg parameters: whitespace-separated tokens honouring single and
double quotes (backslash escapes, which never affect token order, are
not modelled). The accumulator `cur` is the current token reversed, or
`none` between tokens; `quo` is the active quote character. -/
def shlexGo : List Char → Option Char → Option (List Char) → List String
  | [], _, none => []
  | [], _, some t => [String.mk t.reverse]
  | c :: rest, some quo, cur =>
      if c = quo then shlexGo rest none (some (cur.getD []))
      else shlexGo rest (some quo) (some (c :: cur.getD []))
  | c :: rest, none, cur =>
      if c = '\'' || c = '"' then shlexGo rest (some c) (some (cur.getD []))
      else if isPySpace c then
        (match cur with
         | some t => [String.mk t.reverse]
         | none => []) ++ shlexGo rest none none
      else shlexGo rest none (some (c :: cur.getD []))

/-- `shlex.split(additional_params)` (src/rtspMonitor.py:280). -/
def shlex_split (s : String) : List String :=
  shlexGo s.toList none none

/-- The ffmpeg command construction of `run_ffmpeg_monitor`
(src/rtspMonitor.py:277-281): start from `[ffmpeg_exe, "-i", rtsp_url]`,
extend with the shell-tokenized additional parameters when the raw
parameter string is truthy (nonempty), then extend with
`["-f", "null", "-"]`. -/
def build_ffmpeg_cmd (ffmpeg_exe rtsp_url additional_params : String) : List String :=
  let cmd := [ffmpeg_exe, "-i", rtsp_url]
  let cmd := if additional_params ≠ "" then cmd ++ shlex_split additional_params else cmd
  cmd ++ ["-f", "null", "-"]

/-- The fixed grace period `time.sleep(1)` after spawning
(src/rtspMonitor.py:296), in seconds. -/
def grace_period_seconds : ℕ := 1

/-- The launch phase of `run_ffmpeg_monitor` (src/rtspMonitor.py:283-301):
`spawn_ok` is the success of `subprocess.Popen` (a `FileNotFoundError`
is caught otherwise), `exited_within_grace` is `poll() is not None`
after the 1-second sleep, and `leftover` is `stderr.read()` of the dead
process. Returns the messages put on `log_queue` and the resulting
state of `running_event` (`true` means the monitor proceeds to the
ingestion loop). -/
def run_monitor_launch (spawn_ok exited_within_grace : Bool) (leftover : String) :
    List String × Bool :=
  if !spawn_ok then
    (["Error: ffmpeg not found. Check installation or path."], false)
  else if exited_within_grace then
    (["FFmpeg failed to start:\n" ++ leftover], false)
  else
    ([], true)

/-- Escalation steps `stop_monitoring` may apply to the child process
(src/rtspMonitor.py:266-270): `terminate`, then `kill` when the
2-second `wait` times out. -/
inductive TermAction
  | terminate
  | kill
deriving DecidableEq, Repr

/-- The GUI-visible state touched by `stop_monitoring`: the
`running_event` flag, the process handle (`some b` is a handle whose
`poll() is None` equals `b`; `none` is a null handle), the two button
states, and the status-bar text. -/
structure GuiState where
  running_event : Bool
  ffmpeg_process : Option Bool
  start_enabled : Bool
  stop_enabled : Bool
  status : String
deriving DecidableEq, Repr

/-- `stop_monitoring` (src/rtspMonitor.py:263-274): clear
`running_event`; if a handle exists and the process is still running,
terminate it and escalate to kill when it does not exit within the
2-second wait (`exits_within_wait`); null the handle, re-enable Start,
disable Stop, and set the status text. Returns the new state and the
termination actions applied to the process. -/
def stop_monitoring (exits_within_wait : Bool) (s : GuiState) : GuiState × List TermAction :=
  let acts : List TermAction :=
    match s.ffmpeg_process with
    | some true => if exits_within_wait then [TermAction.terminate] else [TermAction.terminate, TermAction.kill]
    | _ => []
  ({ running_event := false, ffmpeg_process := none,
     start_enabled := true, stop_enabled := false, status := "Stopped" }, acts)

/-- A session whose probe process is not running: a null handle or a
handle whose `poll()` reports an exit code. -/
def non_running (s : GuiState) : Prop :=
  s.ffmpeg_process = none ∨ s.ffmpeg_process = some false

/-- A concrete stopped GUI state, as left behind by `stop_monitoring`. -/
def idle_gui_state : GuiState :=
  { running_event := false, ffmpeg_process := none,
    start_enabled := true, stop_enabled := false, status := "Stopped" }

/-- The fps observations of a run: the present `fps` fields in order. -/
def fpsObs (rs : List MetricRecord) : List ℚ :=
  rs.filterMap MetricRecord.fps

/-- The speed observations of a run: the present `speed` fields in order. -/
def speedObs (rs : List MetricRecord) : List ℚ :=
  rs.filterMap MetricRecord.speed

/-- Total of the missed-packet deltas of a run (absent counting zero). -/
def missedTotal (rs : List MetricRecord) : ℕ :=
  (rs.map (fun r => r.missed_packets.getD 0)).sum

/-- The last `n` elements of a list (all of it when it is shorter). -/
def lastN (n : ℕ) (l : List ℚ) : List ℚ :=
  l.drop (l.length - n)

lemma update_stats_eq (s : Stats) (r : MetricRecord) :
    update_stats s r =
      { total_frames := s.total_frames + (match r.fps with | some _ => 1 | none => 0),
        sum_fps := s.sum_fps + (match r.fps with | some v => v | none => 0),
        speed_values :=
          (match r.speed with
           | some v => dequePush 50 s.speed_values v
           | none => s.speed_values),
        missed_packets_count :=
          s.missed_packets_count + (match r.missed_packets with | some m => m | none => 0) } := by
  rcases hf : r.fps with _ | v <;> rcases hs : r.speed with _ | w <;>
    rcases hm : r.missed_packets with _ | m <;>
      simp [update_stats, hf, hs, hm]

lemma foldl_total_frames (rs : List MetricRecord) (s : Stats) :
    (List.foldl update_stats s rs).total_frames = s.total_frames + (fpsObs rs).length := by
  induction rs generalizing s with
  | nil => simp [fpsObs]
  | cons r rs ih =>
    rw [List.foldl_cons, ih, update_stats_eq]
    rcases hf : r.fps with _ | v <;> simp [fpsObs, List.filterMap_cons, hf] <;> omega

lemma foldl_sum_fps (rs : List MetricRecord) (s : Stats) :
    (List.foldl update_stats s rs).sum_fps = s.sum_fps + (fpsObs rs).sum := by
  induction rs generalizing s with
  | nil => simp [fpsObs]
  | cons r rs ih =>
    rw [List.foldl_cons, ih, update_stats_eq]
    rcases hf : r.fps with _ | v <;> simp [fpsObs, List.filterMap_cons, hf] <;> ring

lemma foldl_missed (rs : List MetricRecord) (s : Stats) :
    (List.foldl update_stats s rs).missed_packets_count
      = s.missed_packets_count + missedTotal rs := by
  induction rs generalizing s with
  | nil => simp [missedTotal]
  | cons r rs ih =>
    rw [List.foldl_cons, ih, update_stats_eq]
    rcases hm : r.missed_packets with _ | m <;> simp [missedTotal, hm] <;> omega

lemma dequePush_eq_lastN (cap : ℕ) (w : List ℚ) (x : ℚ) :
    dequePush cap w x = lastN cap (w ++ [x]) := rfl

lemma lastN_length_le (n : ℕ) (l : List ℚ) : (lastN n l).length ≤ n := by
  simp [lastN]
  omega

lemma lastN_of_length_le (n : ℕ) (l : List ℚ) (h : l.length ≤ n) : lastN n l = l := by
  have h0 : l.length - n = 0 := by omega
  rw [lastN, h0, List.drop_zero]

lemma lastN_append (n : ℕ) (a b : List ℚ) :
    lastN n (lastN n a ++ b) = lastN n (a ++ b) := by
  rcases le_or_lt a.length n with h | h
  · rw [lastN_of_length_le n a h]
  · have hk : a.length - n ≤ a.length := Nat.sub_le _ _
    unfold lastN
    rw [← List.drop_append_of_le_length hk, List.drop_drop]
    congr 1
    simp only [List.length_drop, List.length_append]
    omega

lemma dequePush_length_le (w : List ℚ) (x : ℚ) : (dequePush 50 w x).length ≤ 50 := by
  simp [dequePush]
  omega

lemma update_stats_speed_le (s : Stats) (r : MetricRecord)
    (h : s.speed_values.length ≤ 50) : (update_stats s r).speed_values.length ≤ 50 := by
  rw [update_stats_eq]
  rcases hs : r.speed with _ | v
  · simpa using h
  · simpa using dequePush_length_le s.speed_values v

lemma foldl_speed_values (rs : List MetricRecord) (s : Stats)
    (h : s.speed_values.length ≤ 50) :
    (List.foldl update_stats s rs).speed_values = lastN 50 (s.speed_values ++ speedObs rs) := by
  induction rs generalizing s with
  | nil => simp [speedObs, lastN_of_length_le 50 _ h]
  | cons r rs ih =>
    rw [List.foldl_cons, ih _ (update_stats_speed_le s r h), update_stats_eq]
    rcases hs : r.speed with _ | v
    · simp [speedObs, List.filterMap_cons, hs]
    · simp only [speedObs, List.filterMap_cons, hs]
      rw [dequePush_eq_lastN, lastN_append]
      simp [speedObs]

lemma parse_ffmpeg_line_eq (line : String) :
    parse_ffmpeg_line line =
      { fps := fpsField line, speed := speedField line,
        missed_packets := missedField line, max_delay := maxDelayField line,
        decode_errors := decodeField line } := by
  unfold parse_ffmpeg_line fpsField speedField missedField maxDelayField decodeField
  rcases h1 : searchFps line with _ | c1 <;>
    rcases h2 : searchSpeed line with _ | c2 <;>
      rcases h3 : searchMissed line with _ | c3 <;>
        rcases h4 : searchDecode line with _ | ⟨d1, d2, d3⟩ <;>
          cases h5 : searchMaxDelay line <;>
            simp [h1, h2, h3, h4, h5]

lemma parse_decode_not_empty (line : String) :
    (parse_ffmpeg_line line).decode_errors ≠ some "" := by
  rw [parse_ffmpeg_line_eq]
  unfold decodeField
  rcases hd : searchDecode line with _ | ⟨d1, d2, d3⟩
  · simp
  · simp only [ne_eq, Option.some.injEq]
    intro hcontra
    have h1 := congrArg String.length hcontra
    simp [String.length_append] at h1
    exact absurd h1.1.1.1.1.1 (by decide)

/-- C8: for every start of a session, the probe process is invoked with
the executable, then `-i` and the target URL, then the shell-tokenized
extra arguments, then the fixed suffix `-f null -`, in exactly this
order. -/
theorem ffmpeg_cmd_argument_order (ffmpeg_exe rtsp_url additional_params : String) :
    build_ffmpeg_cmd ffmpeg_exe rtsp_url additional_params
      = [ffmpeg_exe, "-i", rtsp_url] ++ shlex_split additional_params ++ ["-f", "null", "-"] := by
  unfold build_ffmpeg_cmd
  by_cases h : additional_params = ""
  · subst h
    have he : shlex_split "" = [] := rfl
    simp [he]
  · simp [h]

/-- C2: when the spawned probe process has already exited after the fixed
1-second grace period, the supervisor queues the drained diagnostic
output as a launch-failure message (rather than silently continuing)
and clears the running flag, returning the session to idle. -/
theorem launch_failure_surfaced (spawn_ok exited_within_grace : Bool) (leftover : String)
    (hs : spawn_ok = true) (he : exited_within_grace = true) :
    run_monitor_launch spawn_ok exited_within_grace leftover
      = (["FFmpeg failed to start:\n" ++ leftover], false)
    ∧ grace_period_seconds = 1 := by
  subst hs he
  exact ⟨rfl, rfl⟩

/-- Witness for `launch_failure_surfaced` at a concrete drained output. -/
theorem launch_failure_surfaced_witness :
    run_monitor_launch true true "rtsp://example: Connection refused"
      = (["FFmpeg failed to start:\n" ++ "rtsp://example: Connection refused"], false) :=
  (launch_failure_surfaced true true "rtsp://example: Connection refused" rfl rfl).1

/-- C3: calling `stop_monitoring` twice on a non-running session applies
no termination action either time, and the second call leaves the state
it found unchanged. -/
theorem stop_monitoring_idempotent (e1 e2 : Bool) (s : GuiState) (h : non_running s) :
    (stop_monitoring e1 s).2 = []
    ∧ (stop_monitoring e2 (stop_monitoring e1 s).1).2 = []
    ∧ (stop_monitoring e2 (stop_monitoring e1 s).1).1 = (stop_monitoring e1 s).1
    ∧ non_running (stop_monitoring e1 s).1 := by
  rcases h with h | h <;> simp [stop_monitoring, non_running, h]

/-- Witness for `stop_monitoring_idempotent` on a concrete stopped state. -/
theorem stop_monitoring_idempotent_witness :
    (stop_monitoring true idle_gui_state).2 = [] :=
  (stop_monitoring_idempotent true true idle_gui_state (Or.inl rfl)).1

/-- C5: within one session, the cumulative missed-packet counter equals
the sum of all parsed missed-packet values treated as deltas, the
counter is monotonically non-decreasing across every update, and
`missed 3 packets` followed by `missed 2 packets` yields 5. -/
theorem missed_packets_cumulative (rs : List MetricRecord) (s : Stats) (r : MetricRecord) :
    (List.foldl update_stats init_stats rs).missed_packets_count = missedTotal rs
    ∧ s.missed_packets_count ≤ (update_stats s r).missed_packets_count
    ∧ (List.foldl update_stats init_stats
        [parse_ffmpeg_line "missed 3 packets",
         parse_ffmpeg_line "missed 2 packets"]).missed_packets_count = 5 := by
  refine ⟨?_, ?_, ?_⟩
  · rw [foldl_missed]
    simp [init_stats]
  · rw [update_stats_eq]
    rcases hm : r.missed_packets with _ | m <;> simp [hm]
  · decide

/-- C6: within one session, `avg_fps` is the sum of the fps observations
divided by their count, both are reset to zero at session start, and
after observations 10, 20, 30 the average is 20. -/
theorem average_fps_session (rs : List MetricRecord) :
    (List.foldl update_stats init_stats rs).sum_fps = (fpsObs rs).sum
    ∧ (List.foldl update_stats init_stats rs).total_frames = (fpsObs rs).length
    ∧ (0 < (fpsObs rs).length →
        avg_fps (List.foldl update_stats init_stats rs)
          = (fpsObs rs).sum / ((fpsObs rs).length : ℚ))
    ∧ init_stats.sum_fps = 0 ∧ init_stats.total_frames = 0
    ∧ avg_fps (List.foldl update_stats init_stats
        [parse_ffmpeg_line "fps=10", parse_ffmpeg_line "fps=20",
         parse_ffmpeg_line "fps=30"]) = 20 := by
  have h1 : (List.foldl update_stats init_stats rs).sum_fps = (fpsObs rs).sum := by
    rw [foldl_sum_fps]
    simp [init_stats]
  have h2 : (List.foldl update_stats init_stats rs).total_frames = (fpsObs rs).length := by
    rw [foldl_total_frames]
    simp [init_stats]
  refine ⟨h1, h2, ?_, rfl, rfl, ?_⟩
  · intro h
    simp [avg_fps, h1, h2, h]
  · decide

/-- C10: a snapshot taken with zero fps observations (resp. zero speed
observations) reports an average of 0 instead of dividing by zero. -/
theorem snapshot_guarded_zero (rs : List MetricRecord) :
    (fpsObs rs = [] → avg_fps (List.foldl update_stats init_stats rs) = 0)
    ∧ (speedObs rs = [] → avg_speed (List.foldl update_stats init_stats rs) = 0) := by
  constructor
  · intro h
    have h2 : (List.foldl update_stats init_stats rs).total_frames = 0 := by
      rw [foldl_total_frames, h]
      simp [init_stats]
    simp [avg_fps, h2]
  · intro h
    have h2 : (List.foldl update_stats init_stats rs).speed_values = [] := by
      rw [foldl_speed_values rs init_stats (by simp [init_stats])]
      simp [init_stats, h, lastN]
    simp [avg_speed, h2]

/-- Witness for `snapshot_guarded_zero` on the empty session. -/
theorem snapshot_guarded_zero_witness :
    avg_fps (List.foldl update_stats init_stats []) = 0
    ∧ avg_speed (List.foldl update_stats init_stats []) = 0 :=
  ⟨(snapshot_guarded_zero []).1 rfl, (snapshot_guarded_zero []).2 rfl⟩

/-- Witness for `average_fps_session`: the fps observations 10, 20, 30
have a positive count and the average equals their sum over their count. -/
theorem average_fps_session_witness :
    avg_fps (List.foldl update_stats init_stats
        [parse_ffmpeg_line "fps=10", parse_ffmpeg_line "fps=20", parse_ffmpeg_line "fps=30"])
      = (fpsObs [parse_ffmpeg_line "fps=10", parse_ffmpeg_line "fps=20",
          parse_ffmpeg_line "fps=30"]).sum
        / ((fpsObs [parse_ffmpeg_line "fps=10", parse_ffmpeg_line "fps=20",
            parse_ffmpeg_line "fps=30"]).length : ℚ) :=
  (average_fps_session [parse_ffmpeg_line "fps=10", parse_ffmpeg_line "fps=20",
    parse_ffmpeg_line "fps=30"]).2.2.1 (by decide)

/-- C7: within one session, the speed window holds exactly the most
recent `min(n, 50)` speed observations (pushing past capacity 50 evicts
the oldest), `avg_speed` is the arithmetic mean of only those windowed
values, and after 60 pushes exactly the last 50 remain. -/
theorem speed_window_bounded (rs : List MetricRecord) :
    (List.foldl update_stats init_stats rs).speed_values = lastN 50 (speedObs rs)
    ∧ (lastN 50 (speedObs rs)).length = min 50 (speedObs rs).length
    ∧ (∀ (w : List ℚ) (x : ℚ), w.length = 50 → dequePush 50 w x = w.drop 1 ++ [x])
    ∧ (speedObs rs ≠ [] →
        avg_speed (List.foldl update_stats init_stats rs)
          = (lastN 50 (speedObs rs)).sum / ((lastN 50 (speedObs rs)).length : ℚ))
    ∧ ((List.range 60).map (fun i => (i : ℚ))).foldl (dequePush 50) []
        = (((List.range 60).map (fun i => (i : ℚ))).drop 10) := by
  have h1 : (List.foldl update_stats init_stats rs).speed_values = lastN 50 (speedObs rs) := by
    rw [foldl_speed_values rs init_stats (by simp [init_stats])]
    simp [init_stats]
  have h2 : (lastN 50 (speedObs rs)).length = min 50 (speedObs rs).length := by
    simp [lastN]
    omega
  refine ⟨h1, h2, ?_, ?_, ?_⟩
  · intro w x h
    unfold dequePush
    simp only [List.length_append, List.length_cons, List.length_nil, h]
    rw [show (50 + (0 + 1) - 50) = 1 by omega]
    rw [List.drop_append_of_le_length (by omega)]
  · intro hne
    have hlen : 0 < (speedObs rs).length := List.length_pos.mpr hne
    rcases hw : lastN 50 (speedObs rs) with _ | ⟨a, as⟩
    · exfalso
      have hl := congrArg List.length hw
      rw [h2] at hl
      simp only [List.length_nil] at hl
      omega
    · unfold avg_speed
      rw [h1, hw]
      simp
  · decide

/-- Witness for `speed_window_bounded` on a session with one speed
observation. -/
theorem speed_window_bounded_witness :
    avg_speed (List.foldl update_stats init_stats [parse_ffmpeg_line "speed=1.02x"])
      = (lastN 50 (speedObs [parse_ffmpeg_line "speed=1.02x"])).sum
        / ((lastN 50 (speedObs [parse_ffmpeg_line "speed=1.02x"])).length : ℚ) :=
  (speed_window_bounded [parse_ffmpeg_line "speed=1.02x"]).2.2.2.1 (by decide)

/-- C4: for every input line the parser returns a record (it is a total
function), each field equals its own independent extraction, a field
whose pattern does not occur is absent, and a matched numeric group is
converted by the fallible `float`/`int` conversion alone, so a numeric
failure degrades only that field. -/
theorem parse_line_total_componentwise (line : String) :
    parse_ffmpeg_line line =
      { fps := fpsField line, speed := speedField line,
        missed_packets := missedField line, max_delay := maxDelayField line,
        decode_errors := decodeField line }
    ∧ (searchFps line = none → (parse_ffmpeg_line line).fps = none)
    ∧ (∀ cap, searchFps line = some cap → (parse_ffmpeg_line line).fps = pyFloatQ cap)
    ∧ (searchSpeed line = none → (parse_ffmpeg_line line).speed = none)
    ∧ (∀ cap, searchSpeed line = some cap → (parse_ffmpeg_line line).speed = pyFloatQ cap)
    ∧ (searchMissed line = none → (parse_ffmpeg_line line).missed_packets = none)
    ∧ (∀ cap, searchMissed line = some cap → (parse_ffmpeg_line line).missed_packets = pyIntN cap)
    ∧ (parse_ffmpeg_line line).max_delay = searchMaxDelay line
    ∧ (searchDecode line = none → (parse_ffmpeg_line line).decode_errors = none) := by
  have he := parse_ffmpeg_line_eq line
  refine ⟨he, ?_, ?_, ?_, ?_, ?_, ?_, ?_, ?_⟩
  · intro h
    rw [he]
    simp [fpsField, h]
  · intro cap h
    rw [he]
    simp [fpsField, h]
  · intro h
    rw [he]
    simp [speedField, h]
  · intro cap h
    rw [he]
    simp [speedField, h]
  · intro h
    rw [he]
    simp [missedField, h]
  · intro cap h
    rw [he]
    simp [missedField, h]
  · rw [he]
    simp [maxDelayField]
  · intro h
    rw [he]
    simp [decodeField, h]

/-- Witness for `parse_line_total_componentwise`: on
`fps=1.2.3 speed=0.99x` the malformed fps number degrades only the fps
field, while the speed field is still extracted. -/
theorem parse_line_total_componentwise_witness :
    (parse_ffmpeg_line "fps=1.2.3 speed=0.99x").fps = pyFloatQ ['1', '.', '2', '.', '3']
    ∧ (parse_ffmpeg_line "fps=1.2.3 speed=0.99x").speed = pyFloatQ ['0', '.', '9', '9']
    ∧ pyFloatQ ['1', '.', '2', '.', '3'] = none
    ∧ pyFloatQ ['0', '.', '9', '9'] = some (99/100) := by
  refine ⟨?_, ?_, by decide, by decide⟩
  · exact (parse_line_total_componentwise "fps=1.2.3 speed=0.99x").2.2.1 _ (by decide)
  · exact (parse_line_total_componentwise "fps=1.2.3 speed=0.99x").2.2.2.2.1 _ (by decide)

lemma row_roundtrip (t line : String) (r : MetricRecord)
    (hm0 : r.missed_packets ≠ some 0) (hd0 : r.decode_errors ≠ some "") :
    read_record (write_row t r line) = some (t, r, line) := by
  obtain ⟨f, sp, m, md, de⟩ := r
  rcases f with _ | vf <;> rcases sp with _ | vs <;> rcases m with _ | vm <;>
    rcases de with _ | d <;> cases md <;>
      simp_all [write_row, read_record, read_opt_num, read_opt_nat, read_flag, read_decode]

/-- C1 (amended): for every record appended by the writer, `fps` and
`speed` serialize as the empty string exactly when absent and as the
numeric value otherwise; `missed_packets` serializes as the empty
string when absent or when its value is 0 and as the numeric value
otherwise; `max_delay_reached` serializes as 1/0; `decode_errors`
serializes as the composite string when present and empty when absent;
re-reading an appended row reproduces the record whenever its
missed-packet field is not a present 0. -/
theorem persisted_row_serialization (t line : String)
    (h : (parse_ffmpeg_line line).missed_packets ≠ some 0) :
    read_record (write_row t (parse_ffmpeg_line line) line)
      = some (t, parse_ffmpeg_line line, line)
    ∧ ((parse_ffmpeg_line line).fps = none →
        (write_row t (parse_ffmpeg_line line) line).get? 1 = some (Cell.s ""))
    ∧ (∀ v, (parse_ffmpeg_line line).fps = some v →
        (write_row t (parse_ffmpeg_line line) line).get? 1 = some (Cell.q v))
    ∧ ((parse_ffmpeg_line line).speed = none →
        (write_row t (parse_ffmpeg_line line) line).get? 2 = some (Cell.s ""))
    ∧ (∀ v, (parse_ffmpeg_line line).speed = some v →
        (write_row t (parse_ffmpeg_line line) line).get? 2 = some (Cell.q v))
    ∧ ((parse_ffmpeg_line line).missed_packets = none →
        (write_row t (parse_ffmpeg_line line) line).get? 3 = some (Cell.s ""))
    ∧ (∀ v, (parse_ffmpeg_line line).missed_packets = some v →
        (write_row t (parse_ffmpeg_line line) line).get? 3 = some (Cell.n v))
    ∧ (write_row t (parse_ffmpeg_line line) line).get? 4
        = some (Cell.i (if (parse_ffmpeg_line line).max_delay then 1 else 0))
    ∧ ((parse_ffmpeg_line line).decode_errors = none →
        (write_row t (parse_ffmpeg_line line) line).get? 5 = some (Cell.s ""))
    ∧ (∀ d, (parse_ffmpeg_line line).decode_errors = some d →
        (write_row t (parse_ffmpeg_line line) line).get? 5 = some (Cell.s d)) := by
  refine ⟨row_roundtrip t line _ h (parse_decode_not_empty line),
    ?_, ?_, ?_, ?_, ?_, ?_, ?_, ?_, ?_⟩
  · intro hf
    simp [write_row, hf]
  · intro v hf
    simp [write_row, hf]
  · intro hs
    simp [write_row, hs]
  · intro v hs
    simp [write_row, hs]
  · intro hm
    simp [write_row, hm]
  · intro v hm
    have hv : v ≠ 0 := by
      rintro rfl
      exact h hm
    simp [write_row, hm, hv]
  · simp [write_row]
  · intro hd
    simp [write_row, hd]
  · intro d hd
    have hdne : d ≠ "" := by
      rintro rfl
      exact parse_decode_not_empty line hd
    simp [write_row, hd, hdne]

/-- Witness for `persisted_row_serialization` on a row whose record has
fps and speed present and no missed-packet value. -/
theorem persisted_row_serialization_witness :
    read_record (write_row "T" (parse_ffmpeg_line "fps= 25.0 speed=1.02x")
        "fps= 25.0 speed=1.02x")
      = some ("T", parse_ffmpeg_line "fps= 25.0 speed=1.02x", "fps= 25.0 speed=1.02x") :=
  (persisted_row_serialization "T" "fps= 25.0 speed=1.02x" (by decide)).1

/-- C1 counterexample: on the line `missed 0 packets` the parser yields
a present missed-packet count of 0, yet the writer serializes that
column as the empty marker, so the re-read row does not reproduce the
record's field values. -/
theorem persisted_row_missed_zero_counterexample :
    (parse_ffmpeg_line "missed 0 packets").missed_packets = some 0
    ∧ (write_row "2025-01-01T00:00:00" (parse_ffmpeg_line "missed 0 packets")
        "missed 0 packets").get? 3 = some (Cell.s "")
    ∧ read_record (write_row "2025-01-01T00:00:00" (parse_ffmpeg_line "missed 0 packets")
          "missed 0 packets")
        ≠ some ("2025-01-01T00:00:00", parse_ffmpeg_line "missed 0 packets",
            "missed 0 packets") := by
  refine ⟨by decide, by decide, by decide⟩
